import Mathlib

/-!
Shallow embedding of the rustty key-value storage engine
(`src/core/src/lib.rs`, `src/storage/src/lib.rs`, `src/storage/src/mvcc.rs`,
`src/storage/src/garbage_collector.rs`, `src/storage/src/compaction.rs`).

Keys and values are opaque byte strings, modelled as `List Nat`.
Wall-clock microsecond timestamps (`VersionTimestamp::now()`) are modelled
as a logical counter threaded through the state; locks, the WAL file and
on-disk serialization are elided (the WAL write in `put` always succeeds
and is not consulted by any read path in the source).
-/

/-- Lexicographic order on byte strings, matching `Ord` for `Vec<u8>`. -/
def keyLt : List Nat → List Nat → Bool
  | [], [] => false
  | [], _ :: _ => true
  | _ :: _, [] => false
  | x :: xs, y :: ys =>
    if x < y then true
    else if y < x then false
    else keyLt xs ys

/-- Insertion into a key-sorted association list, replacing an existing
binding, matching `BTreeMap::insert`. -/
def insertEntry (k v : List Nat) : List (List Nat × List Nat) → List (List Nat × List Nat)
  | [] => [(k, v)]
  | (k', v') :: rest =>
    if keyLt k k' then (k, v) :: (k', v') :: rest
    else if k = k' then (k, v) :: rest
    else (k', v') :: insertEntry k v rest

/-- Lookup in an association list, matching `BTreeMap::get`. -/
def lookupKey (k : List Nat) : List (List Nat × List Nat) → Option (List Nat)
  | [] => none
  | (k', v') :: rest => if k' = k then some v' else lookupKey k rest

/-- Memtable flush threshold: `FLUSH_THRESHOLD = 1024 * 1024` in
`src/storage/src/lib.rs`. -/
def flushThreshold : Nat := 1024 * 1024

/-- Rust `MemTable` from `src/storage/src/lib.rs`: a `BTreeMap<Vec<u8>, Vec<u8>>`
(modelled as a key-sorted association list) plus a byte-size counter. -/
structure MemTable where
  data : List (List Nat × List Nat)
  size : Nat
deriving DecidableEq

/-- Rust `MemTable::new`. -/
def MemTable.new : MemTable := { data := [], size := 0 }

/-- Rust `MemTable::insert`: `self.size += key.len() + value.len();
self.data.insert(key, value);` — the size counter is increased
unconditionally, also when the key overwrites an existing binding. -/
def MemTable.insert (m : MemTable) (k v : List Nat) : MemTable :=
  { data := insertEntry k v m.data, size := m.size + k.length + v.length }

/-- Rust `MemTable::get`. -/
def MemTable.get (m : MemTable) (k : List Nat) : Option (List Nat) :=
  lookupKey k m.data

/-- Rust `MemTable::scan`: `range(prefix..).take_while(starts_with prefix)`.
On the key-sorted association list, `range(prefix..)` drops the entries
whose key is below the prefix. -/
def MemTable.scan (m : MemTable) (pre : List Nat) : List (List Nat × List Nat) :=
  (m.data.dropWhile (fun e => keyLt e.1 pre)).takeWhile (fun e => pre.isPrefixOf e.1)

/-- Rust `MemTable::should_flush`: `self.size > *FLUSH_THRESHOLD`. -/
def MemTable.shouldFlush (m : MemTable) : Bool :=
  decide (m.size > flushThreshold)

/-- Rust `MemTable::len`. -/
def MemTable.len (m : MemTable) : Nat := m.data.length

/-- Rust `SSTable` from `src/storage/src/lib.rs`; the memory-mapped file body is
modelled as the list of entries written by `from_memtable`. -/
structure SSTable where
  entries : List (List Nat × List Nat)
deriving DecidableEq

/-- Rust `SSTable::from_memtable` serializes the memtable entries in key order. -/
def SSTable.fromMemtable (m : MemTable) : SSTable := ⟨m.data⟩

/-- Rust `SSTable::get` in the source is a stub: it ignores the key and returns
`None` unconditionally (`src/storage/src/lib.rs` lines 166-170). -/
def SSTable.get (_s : SSTable) (_k : List Nat) : Option (List Nat) := none

/-- First hit over a list of SSTables, as the loop in `LsmStorage::get`
returns at the first `Some`. -/
def firstSSTableHit (k : List Nat) : List SSTable → Option (List Nat)
  | [] => none
  | s :: rest =>
    match s.get k with
    | some v => some v
    | none => firstSSTableHit k rest

/-- Rust `LsmStorage` from `src/storage/src/lib.rs`: the active memtable and the
list of flushed SSTables (newest at the back). The WAL, the per-level map
used only by compaction, and the index manager are not consulted by the
`put`/`get`/`delete`/`scan` paths modelled here. -/
structure LsmStorage where
  memtable : MemTable
  sstables : List SSTable
deriving DecidableEq

/-- A freshly opened `LsmStorage` (`LsmStorage::new`). -/
def LsmStorage.empty : LsmStorage := { memtable := MemTable.new, sstables := [] }

/-- Rust `LsmStorage::flush_memtable`: if the memtable is non-empty, write it to
a new SSTable appended to the list and replace the memtable with a fresh
empty one. -/
def LsmStorage.flushMemtable (st : LsmStorage) : LsmStorage :=
  if st.memtable.len = 0 then st
  else { memtable := MemTable.new,
         sstables := st.sstables ++ [SSTable.fromMemtable st.memtable] }

/-- Rust `LsmStorage::put`: append to the WAL (elided), insert into the memtable,
then flush if the size threshold is exceeded. -/
def LsmStorage.put (st : LsmStorage) (k v : List Nat) : LsmStorage :=
  let m := st.memtable.insert k v
  let st' : LsmStorage := { st with memtable := m }
  if m.shouldFlush then st'.flushMemtable else st'

/-- Rust `LsmStorage::get`: check the memtable first, then the SSTables from
newest to oldest; there is no tombstone check on this path. -/
def LsmStorage.get (st : LsmStorage) (k : List Nat) : Option (List Nat) :=
  match st.memtable.get k with
  | some v => some v
  | none => firstSSTableHit k st.sstables.reverse

/-- Rust `Database::delete` for `LsmStorage`: `self.put(key, &[])` — the empty
value is the tombstone marker. -/
def LsmStorage.delete (st : LsmStorage) (k : List Nat) : LsmStorage :=
  st.put k []

/-- Stable insertion of an entry into a key-sorted list (helper for the
`sort_by(a.0.cmp(b.0))` in `LsmStorage::scan`). -/
def insertByKey (e : List Nat × List Nat) : List (List Nat × List Nat) → List (List Nat × List Nat)
  | [] => [e]
  | f :: rest =>
    if keyLt f.1 e.1 then f :: insertByKey e rest
    else e :: f :: rest

/-- Stable sort by key (`results.sort_by(|a, b| a.0.cmp(&b.0))`). -/
def sortByKey : List (List Nat × List Nat) → List (List Nat × List Nat)
  | [] => []
  | e :: rest => insertByKey e (sortByKey rest)

/-- Tail of `dedup_by`: drop an entry when its key equals the key of the
last retained entry. -/
def dedupAux (prev : List Nat) : List (List Nat × List Nat) → List (List Nat × List Nat)
  | [] => []
  | f :: rest => if f.1 = prev then dedupAux prev rest else f :: dedupAux f.1 rest

/-- Rust `dedup_by(|a, b| a.0 == b.0)`: collapse consecutive entries with equal
keys, keeping the first of each run. -/
def dedupByKey : List (List Nat × List Nat) → List (List Nat × List Nat)
  | [] => []
  | e :: rest => e :: dedupAux e.1 rest

/-- Rust `LsmStorage::scan`: collect from the memtable (the SSTable loop body in
the source is empty), sort by key, drop consecutive duplicate keys.
Tombstones are not filtered. -/
def LsmStorage.scan (st : LsmStorage) (pre : List Nat) : List (List Nat × List Nat) :=
  dedupByKey (sortByKey (st.memtable.scan pre))

/-- Byte size of a list of (key, value) entries: Σ (len(key) + len(value)). -/
def entriesByteSize (l : List (List Nat × List Nat)) : Nat :=
  l.foldr (fun e acc => e.1.length + e.2.length + acc) 0

/-- Apply a sequence of `MemTable::insert` operations. -/
def MemTable.applyInserts (m : MemTable) : List (List Nat × List Nat) → MemTable
  | [] => m
  | (k, v) :: rest => (m.insert k v).applyInserts rest

-- Sanity examples (scratch checks of the embedding on concrete data).
example : (LsmStorage.empty.put [1] [2]).get [1] = some [2] := by decide
example : ((LsmStorage.empty.put [1] [2]).put [0] [3]).scan [] =
    [([0], [3]), ([1], [2])] := by decide

/-- Error cases of `DbError` from `src/core/src/lib.rs` reachable in the
modelled paths. -/
inductive DbError where
  | Storage (msg : String)
  | Serialization (msg : String)
  | Txconflict (msg : String)
  | Txerror (msg : String)
  | Compaction (msg : String)
  | Gcerror (msg : String)
deriving DecidableEq

/-- Rust `TransactionState` from `src/core/src/lib.rs`. -/
inductive TransactionState where
  | Active
  | Committed
  | Aborted
deriving DecidableEq

/-- Rust `Transaction` from `src/core/src/lib.rs`: id, snapshot timestamp, state
and the write buffer (a `HashMap<Vec<u8>, Option<Vec<u8>>>`, modelled as an
association list with replacing insert). -/
structure Transaction where
  id : Nat
  snapshot_ts : Nat
  state : TransactionState
  writes : List (List Nat × Option (List Nat))
deriving DecidableEq

/-- Replacing insert into the write-buffer association list
(`HashMap::insert`). -/
def insertWrite (k : List Nat) (v : Option (List Nat)) :
    List (List Nat × Option (List Nat)) → List (List Nat × Option (List Nat))
  | [] => [(k, v)]
  | (k', v') :: rest =>
    if k' = k then (k, v) :: rest else (k', v') :: insertWrite k v rest

/-- Rust `Transaction::put`: buffer `Some(value)` for the key. -/
def Transaction.bufferPut (tx : Transaction) (k v : List Nat) : Transaction :=
  { tx with writes := insertWrite k (some v) tx.writes }

/-- Rust `Transaction::delete`: buffer `None` for the key. -/
def Transaction.bufferDelete (tx : Transaction) (k : List Nat) : Transaction :=
  { tx with writes := insertWrite k none tx.writes }

/-- Rust `TransactionManager` state from `src/storage/src/mvcc.rs`: the active
transaction-id set and the committed map (tx id to commit timestamp). -/
structure TransactionManager where
  active : List Nat
  committed : List (Nat × Nat)
deriving DecidableEq

/-- Rust `TransactionManager::new`. -/
def TransactionManager.new : TransactionManager := { active := [], committed := [] }

/-- Rust `TransactionManager::get_latest_commit_timestamp`: maximum committed
timestamp, or 0 when none. -/
def TransactionManager.latestCommitTs (tm : TransactionManager) : Nat :=
  tm.committed.foldr (fun e acc => max e.2 acc) 0

/-- Rust `MvccLsmStorage` from `src/storage/src/lib.rs` together with the
process-wide pieces of ambient state it draws on: the global
`TransactionId` counter and the wall clock (modelled as a logical counter
returned by each `VersionTimestamp::now()` call). -/
structure MvccLsmStorage where
  base : LsmStorage
  tm : TransactionManager
  nextTxId : Nat
  clock : Nat
deriving DecidableEq

/-- A freshly opened `MvccLsmStorage` (`MvccLsmStorage::new`); the global
id counter starts at 1 and the clock at 1. -/
def MvccLsmStorage.empty : MvccLsmStorage :=
  { base := LsmStorage.empty, tm := TransactionManager.new, nextTxId := 1, clock := 1 }

/-- Rust `MvccDatabase::begin_transaction` for `MvccLsmStorage`, which is
`TransactionManager::begin_transaction`: allocate a fresh id, add it to the
active set, and take `snapshot_ts` equal to the latest commit timestamp. -/
def MvccLsmStorage.beginTransaction (st : MvccLsmStorage) :
    Transaction × MvccLsmStorage :=
  (⟨st.nextTxId, st.tm.latestCommitTs, TransactionState.Active, []⟩,
   { st with tm := { st.tm with active := st.nextTxId :: st.tm.active },
             nextTxId := st.nextTxId + 1 })

/-- Rust `Transaction::new` from `src/core/src/lib.rs`: a transaction built
outside the manager (as `LsmStorage::begin_transaction` does) — a fresh
global id and `snapshot_ts = now`, with no registration in the manager's
active set. -/
def MvccLsmStorage.newUnregisteredTransaction (st : MvccLsmStorage) :
    Transaction × MvccLsmStorage :=
  (⟨st.nextTxId, st.clock, TransactionState.Active, []⟩,
   { st with nextTxId := st.nextTxId + 1, clock := st.clock + 1 })

/-- Application loop at the top of `MvccDatabase::commit_transaction` for
`MvccLsmStorage`: each buffered `Some(value)` is `put`, each `None` is
`delete`, directly on the base storage. -/
def applyWrites (base : LsmStorage) :
    List (List Nat × Option (List Nat)) → LsmStorage
  | [] => base
  | (k, some v) :: rest => applyWrites (base.put k v) rest
  | (k, none) :: rest => applyWrites (base.delete k) rest

/-- Rust `TransactionManager::commit_transaction`: error unless the id is in the
active set; otherwise stamp a commit timestamp, move the id from active to
committed. There is no conflict check. -/
def TransactionManager.commitTransaction (tm : TransactionManager)
    (txId now : Nat) : Except DbError TransactionManager :=
  if txId ∈ tm.active then
    Except.ok { active := tm.active.filter (fun i => i ≠ txId),
                committed := (txId, now) :: tm.committed }
  else
    Except.error (DbError.Txerror "Transaction not active")

/-- Rust `MvccDatabase::commit_transaction` for `MvccLsmStorage`: the write
buffer is applied to the base storage first, and only then does
`TransactionManager::commit_transaction` run; on its error the already
applied writes are left in place. -/
def MvccLsmStorage.commitTransaction (st : MvccLsmStorage) (tx : Transaction) :
    MvccLsmStorage × Except DbError Unit :=
  let base' := applyWrites st.base tx.writes
  match st.tm.commitTransaction tx.id st.clock with
  | Except.ok tm' =>
    ({ st with base := base', tm := tm', clock := st.clock + 1 }, Except.ok ())
  | Except.error e =>
    ({ st with base := base' }, Except.error e)

/-- Rust `MvccDatabase::rollback_transaction` for `MvccLsmStorage`
(`TransactionManager::rollback_transaction`): error unless active;
otherwise remove from the active set without touching the base storage. -/
def MvccLsmStorage.rollbackTransaction (st : MvccLsmStorage) (tx : Transaction) :
    MvccLsmStorage × Except DbError Unit :=
  if tx.id ∈ st.tm.active then
    ({ st with tm := { st.tm with active := st.tm.active.filter (fun i => i ≠ tx.id) } },
     Except.ok ())
  else
    (st, Except.error (DbError.Txerror "Transaction not active"))

/-- Rust `MvccDatabase::get_for_transaction` for `MvccLsmStorage`: the
transaction argument is ignored and the read goes straight to
`LsmStorage::get` (`src/storage/src/lib.rs` lines 584-592). -/
def MvccLsmStorage.getForTransaction (st : MvccLsmStorage) (k : List Nat)
    (_tx : Transaction) : Option (List Nat) :=
  st.base.get k

/-- Rust `MvccDatabase::scan_for_transaction` for `MvccLsmStorage`: the
transaction argument is ignored and the scan goes to `LsmStorage::scan`. -/
def MvccLsmStorage.scanForTransaction (st : MvccLsmStorage) (pre : List Nat)
    (_tx : Transaction) : List (List Nat × List Nat) :=
  st.base.scan pre

/-- Rust `VersionedRecord` from `src/core/src/lib.rs`; `TransactionId` and
`VersionTimestamp` are `u64` newtypes, modelled as `Nat` (0 is the
reserved no-transaction id and the live expiry stamp). -/
structure VersionedRecord where
  value : List Nat
  created_tx : Nat
  expired_tx : Nat
  created_ts : Nat
  expired_ts : Nat
deriving DecidableEq

/-- Rust `VersionedRecord::is_visible` (`src/core/src/lib.rs` lines 273-275):
`created_ts <= snapshot_ts && (expired_tx.0 == 0 || expired_ts > snapshot_ts)
&& created_tx != tx_id`. -/
def VersionedRecord.is_visible (r : VersionedRecord) (txId snapshotTs : Nat) : Bool :=
  (decide (r.created_ts ≤ snapshotTs) &&
    (decide (r.expired_tx = 0) || decide (r.expired_ts > snapshotTs))) &&
  decide (r.created_tx ≠ txId)

/-- The MVCC version store: map from key to its chronological version
chain (`HashMap<Vec<u8>, Vec<VersionedRecord>>`, modelled as an
association list). -/
def VersionStore : Type := List (List Nat × List VersionedRecord)

/-- Per-key body of `GarbageCollector::find_obsolete_versions`
(`src/storage/src/garbage_collector.rs` lines 77-95): skip chains of at
most `min_versions_to_keep` versions; otherwise return the index of the
first version with `created_ts < retention_threshold` and
`created_ts < oldest_snapshot_ts` (the chain-length conjunct of the loop
condition is re-checked as in the source). -/
def findObsoleteInChain (minKeep oldestSnapshot retentionThreshold : Nat)
    (versions : List VersionedRecord) : Option Nat :=
  if versions.length ≤ minKeep then none
  else
    versions.findIdx? (fun v =>
      decide (v.created_ts < retentionThreshold) &&
      decide (v.created_ts < oldestSnapshot) &&
      decide (versions.length > minKeep))

/-- Rust `GarbageCollector::find_obsolete_versions`: at most one obsolete index
per key. -/
def findObsoleteVersions (minKeep oldestSnapshot retentionThreshold : Nat)
    (store : VersionStore) : List (List Nat × Nat) :=
  store.foldr
    (fun e acc =>
      match findObsoleteInChain minKeep oldestSnapshot retentionThreshold e.2 with
      | some i => (e.1, i) :: acc
      | none => acc)
    []

/-- Rust `GarbageCollector::remove_version`: remove the version at the index
from the key's chain when in bounds; also returns the removed record
(`Vec::remove` yields the element). -/
def removeVersionFromStore (store : VersionStore) (k : List Nat) (i : Nat) :
    VersionStore × Option VersionedRecord :=
  match store with
  | [] => ([], none)
  | e :: rest =>
    if e.1 = k then
      if i < e.2.length then ((e.1, e.2.eraseIdx i) :: rest, e.2[i]?)
      else (e :: rest, none)
    else
      let (rest', removed) := removeVersionFromStore rest k i
      (e :: rest', removed)

/-- Rust `GarbageCollector::run_garbage_collection` restricted to the version
store: find the obsolete (key, index) pairs, then remove each. The oldest
active snapshot timestamp and the retention threshold are parameters (the
source computes them from the transaction registry and the wall clock).
Returns the new store together with the list of removed records. -/
def runGarbageCollection (store : VersionStore)
    (minKeep oldestSnapshot retentionThreshold : Nat) :
    VersionStore × List VersionedRecord :=
  let obsolete := findObsoleteVersions minKeep oldestSnapshot retentionThreshold store
  obsolete.foldl
    (fun acc e =>
      let (st', removed) := removeVersionFromStore acc.1 e.1 e.2
      (st', acc.2 ++ removed.toList))
    (store, [])

/-- Rust `CompactionStats` from `src/core/src/compaction.rs`. -/
structure CompactionStats where
  sstables_merged : Nat
  space_reclaimed : Nat
  duration_ms : Nat
deriving DecidableEq

/-- The mutable state of `CompactionManager` from
`src/storage/src/compaction.rs`: the `is_compacting` flag. -/
structure CompactionManager where
  is_compacting : Bool
deriving DecidableEq

/-- The error returned when a compaction is (believed to be) running. -/
def alreadyInProgress : DbError :=
  DbError.Compaction "Compaction already in progress"

/-- Rust `CompactionManager::trigger_compaction` (`src/storage/src/compaction.rs`
lines 24-47), with the outcome of the selected strategy as a parameter:
if the flag is set, fail immediately; otherwise set the flag, run the
strategy, and reset the flag only after the strategy returns `Ok` — the
`?` on the strategy result returns early on error, leaving the flag set. -/
def CompactionManager.triggerCompaction (cm : CompactionManager)
    (strategyOutcome : Except DbError CompactionStats) :
    CompactionManager × Except DbError CompactionStats :=
  if cm.is_compacting then (cm, Except.error alreadyInProgress)
  else
    match strategyOutcome with
    | Except.error e => ({ is_compacting := true }, Except.error e)
    | Except.ok stats => ({ is_compacting := false }, Except.ok stats)

/-- A sequence of `trigger_compaction` calls with the given strategy
outcomes, collecting the results. -/
def CompactionManager.runTriggers (cm : CompactionManager) :
    List (Except DbError CompactionStats) →
    CompactionManager × List (Except DbError CompactionStats)
  | [] => (cm, [])
  | o :: rest =>
    let (cm1, r) := cm.triggerCompaction o
    let (cm2, rs) := cm1.runTriggers rest
    (cm2, r :: rs)

/-! Theorems for the claims. -/

instance {ε α : Type} [DecidableEq ε] [DecidableEq α] :
    DecidableEq (Except ε α) := fun x y =>
  match x, y with
  | Except.ok a, Except.ok b => decidable_of_iff (a = b) (by simp)
  | Except.error e, Except.error f => decidable_of_iff (e = f) (by simp)
  | Except.ok _, Except.error _ => Decidable.isFalse (fun h => Except.noConfusion h)
  | Except.error _, Except.ok _ => Decidable.isFalse (fun h => Except.noConfusion h)

/-- A single put whose key and value jointly exceed the flush threshold
triggers an immediate flush, after which `get` of that key — with no
intervening write — comes back empty, since `SSTable::get` never finds
anything. -/
theorem put_overflow_get_none (k v : List Nat)
    (h : flushThreshold < k.length + v.length) :
    (LsmStorage.empty.put k v).get k = none := by
  have hsize : flushThreshold < (MemTable.new.insert k v).size := by
    simp only [MemTable.new, MemTable.insert]
    omega
  have hsf : (MemTable.new.insert k v).shouldFlush = true := by
    simp only [MemTable.shouldFlush, gt_iff_lt, decide_eq_true_eq]
    exact hsize
  have hlen : (MemTable.new.insert k v).len = 1 := by
    simp [MemTable.new, MemTable.insert, MemTable.len, insertEntry]
  unfold LsmStorage.put LsmStorage.empty
  simp only [hsf, if_true]
  simp [LsmStorage.flushMemtable, hlen, LsmStorage.get, MemTable.new,
        MemTable.get, lookupKey, firstSSTableHit, SSTable.get]

/-- A key and a value whose single insertion pushes the memtable size past
the flush threshold. -/
def c1Key : List Nat := [0]

/-- The over-threshold value for the flush scenario. -/
def c1Val : List Nat := List.replicate flushThreshold 0

/-- C1 (failing on the code): after `put(k, v)` triggers a memtable flush,
`get(k)` returns `none` rather than `some v`, because `SSTable::get` is a
stub that returns `None` for every key; here a single `put` whose
key+value size exceeds the 1 MiB threshold flushes immediately, and the
following `get` of the same key with no intervening write finds nothing. -/
theorem put_then_get_loses_value_across_flush :
    (LsmStorage.empty.put c1Key c1Val).get c1Key = none :=
  put_overflow_get_none c1Key c1Val
    (by
      have hv : c1Val.length = flushThreshold := by
        rw [c1Val]; exact List.length_replicate flushThreshold 0
      have hk : c1Key.length = 1 := rfl
      rw [hv, hk]
      omega)

/-- C2 (failing on the code): after `put("k","v")` then `delete("k")`,
`get("k")` returns `some []` — the empty tombstone value stored by
`delete` — instead of `none`, because `LsmStorage::get` never treats the
empty value as absence. -/
theorem delete_then_get_returns_tombstone :
    ((LsmStorage.empty.put [107] [118]).delete [107]).get [107] = some [] := by
  decide

/-- The C3 scenario, step 1: T1 begins on a fresh engine. -/
def c3Step1 : Transaction × MvccLsmStorage :=
  MvccLsmStorage.empty.beginTransaction

/-- The C3 scenario, step 2: T2 begins. -/
def c3Step2 : Transaction × MvccLsmStorage :=
  c3Step1.2.beginTransaction

/-- The C3 scenario: T2 buffers `put("x","2")`. -/
def c3Tx2 : Transaction := c3Step2.1.bufferPut [120] [50]

/-- The C3 scenario, step 3: T2 commits. -/
def c3Step3 : MvccLsmStorage × Except DbError Unit :=
  c3Step2.2.commitTransaction c3Tx2

/-- C3 (failing on the code): T1 begins, then T2 puts `("x","2")` and
commits successfully; T1's `get_for_transaction("x")` returns `some "2"`
instead of `none`, because `get_for_transaction` ignores the transaction
and its snapshot entirely and reads the latest state from the base
storage. -/
theorem snapshot_isolation_violated :
    c3Step3.2 = Except.ok () ∧
    c3Step1.1.snapshot_ts = 0 ∧
    c3Step3.1.getForTransaction [120] c3Step1.1 = some [50] := by
  decide

/-- The C4 scenario: T1 begins on a fresh engine. -/
def c4Step1 : Transaction × MvccLsmStorage :=
  MvccLsmStorage.empty.beginTransaction

/-- The C4 scenario: T2 begins before T1 commits. -/
def c4Step2 : Transaction × MvccLsmStorage :=
  c4Step1.2.beginTransaction

/-- The C4 scenario: T1 buffers `put("x","A")`. -/
def c4Tx1 : Transaction := c4Step1.1.bufferPut [120] [65]

/-- The C4 scenario: T2 buffers `put("x","B")`. -/
def c4Tx2 : Transaction := c4Step2.1.bufferPut [120] [66]

/-- The C4 scenario: T1 commits first. -/
def c4Step3 : MvccLsmStorage × Except DbError Unit :=
  c4Step2.2.commitTransaction c4Tx1

/-- The C4 scenario: T2 commits second. -/
def c4Step4 : MvccLsmStorage × Except DbError Unit :=
  c4Step3.1.commitTransaction c4Tx2

/-- C4 (failing on the code): T1 and T2 both begin, their write sets
overlap on "x", T1 commits first — and T2's commit also returns `Ok`
instead of a `TransactionConflict` error: `commit_transaction` applies the
write buffer to the base storage and then only checks that the
transaction id is still active; no conflict check exists anywhere, and
T2's write is applied (the final read of "x" yields T2's "B"). -/
theorem write_write_conflict_not_detected :
    c4Step3.2 = Except.ok () ∧
    c4Step4.2 = Except.ok () ∧
    c4Step4.1.base.get [120] = some [66] := by
  decide

/-- The C5 scenario: a transaction built by core's public
`Transaction::new()` (exactly what `LsmStorage::begin_transaction`
returns), never registered with the manager. -/
def c5Step1 : Transaction × MvccLsmStorage :=
  MvccLsmStorage.empty.newUnregisteredTransaction

/-- The C5 scenario: the transaction buffers `put("k","v")`. -/
def c5Tx : Transaction := c5Step1.1.bufferPut [107] [118]

/-- The C5 scenario: committing it on the engine. -/
def c5Step2 : MvccLsmStorage × Except DbError Unit :=
  c5Step1.2.commitTransaction c5Tx

/-- C5 (failing on the code): this `commit_transaction` call returns the
`Transaction not active` error, yet the buffered write was already applied
to the base storage and stays there — a `get` and even a read through a
transaction begun after the failed commit both see the value, so the
failed commit is not atomic. -/
theorem failed_commit_leaves_writes_visible :
    c5Step2.2 = Except.error (DbError.Txerror "Transaction not active") ∧
    c5Step2.1.base.get [107] = some [118] ∧
    c5Step2.1.getForTransaction [107] (c5Step2.1.beginTransaction).1 = some [118] := by
  decide

/-- C6 (failing on the code): after `put("k","v1")` then `delete("k")`,
`scan("k")` returns the tombstoned entry `("k", [])` instead of the empty
list — `LsmStorage::scan` never drops tombstones. -/
theorem scan_returns_tombstoned_key :
    ((LsmStorage.empty.put [107] [118, 49]).delete [107]).scan [107]
      = [([107], [])] := by
  decide

/-- C7 counterexample: inserting the same (key, value) twice leaves the
size counter at twice the byte size of the single current entry, so the
counter does not equal Σ(len(key)+len(value)) over current entries. -/
theorem memtable_size_counter_overcounts_on_overwrite :
    ¬ ((MemTable.new.applyInserts [([0], [1, 2]), ([0], [1, 2])]).size
        = entriesByteSize (MemTable.new.applyInserts [([0], [1, 2]), ([0], [1, 2])]).data) := by
  decide

/-- Size of the memtable after a sequence of inserts, generalized over the
starting memtable. -/
theorem applyInserts_size (ops : List (List Nat × List Nat)) :
    ∀ m : MemTable, (m.applyInserts ops).size = m.size + entriesByteSize ops := by
  induction ops with
  | nil =>
    intro m
    simp [MemTable.applyInserts, entriesByteSize]
  | cons e rest ih =>
    intro m
    cases e with
    | mk k v =>
      have h1 : m.applyInserts ((k, v) :: rest) = (m.insert k v).applyInserts rest := rfl
      rw [h1, ih]
      simp only [MemTable.insert, entriesByteSize, List.foldr_cons]
      omega

/-- C7 (amended): the `MemTable` byte-size counter equals the sum of
`len(key)+len(value)` over all `insert` operations performed — an insert
that overwrites an existing key adds its contribution on top of the prior
one instead of replacing it, so the counter is an upper bound on, not
equal to, the byte size of the current entries. -/
theorem memtable_size_counter_sums_all_inserts (ops : List (List Nat × List Nat)) :
    (MemTable.new.applyInserts ops).size = entriesByteSize ops := by
  simpa [MemTable.new] using applyInserts_size ops MemTable.new

/-- C8 (confirmed): `VersionedRecord::is_visible(tx_id, snapshot_ts)`
returns true exactly when `created_ts <= snapshot_ts`, and
(`expired_tx = 0` or `expired_ts > snapshot_ts`), and
`created_tx != tx_id`. -/
theorem is_visible_iff (r : VersionedRecord) (txId snapshotTs : Nat) :
    r.is_visible txId snapshotTs = true ↔
      (r.created_ts ≤ snapshotTs ∧ (r.expired_tx = 0 ∨ r.expired_ts > snapshotTs)
        ∧ r.created_tx ≠ txId) := by
  simp [VersionedRecord.is_visible, and_assoc]

/-- Oldest version of the C9 GC scenario: created at time 1 by
transaction 1, never expired. -/
def c9V0 : VersionedRecord :=
  { value := [65], created_tx := 1, expired_tx := 0, created_ts := 1, expired_ts := 0 }

/-- Newer version of the C9 GC scenario: created at time 2 by
transaction 2, never expired. -/
def c9V1 : VersionedRecord :=
  { value := [66], created_tx := 2, expired_tx := 0, created_ts := 2, expired_ts := 0 }

/-- The C9 version store: one key with the two-version chain. -/
def c9Store : VersionStore := [([107], [c9V0, c9V1])]

/-- C9 (failing on the code): with `min_versions_to_keep = 1`, one active
transaction (id 5, snapshot_ts 10, hence oldest active snapshot 10) and
retention threshold 100, the GC run removes the never-expired version
`c9V0` — selected because its `created_ts` is old, with no requirement
that it be expired — even though `is_visible` holds for it under the
active transaction's id and snapshot. -/
theorem gc_removes_version_visible_to_active_transaction :
    (runGarbageCollection c9Store 1 10 100).2 = [c9V0] ∧
    c9V0.is_visible 5 10 = true := by
  decide

/-- After a strategy error the flag is stuck, so every further trigger
returns the already-in-progress error and leaves the flag set. -/
theorem runTriggers_stuck (l : List (Except DbError CompactionStats)) :
    (CompactionManager.mk true).runTriggers l
      = (CompactionManager.mk true, l.map (fun _ => Except.error alreadyInProgress)) := by
  induction l with
  | nil => rfl
  | cons o rest ih =>
    simp [CompactionManager.runTriggers, CompactionManager.triggerCompaction, ih]

/-- C10 (confirmed): when the selected strategy returns an error, the
trigger call propagates that error while leaving `is_compacting` set to
true, and every subsequent `trigger_compaction` call — whatever its
strategy would return — yields the `Compaction already in progress`
error. -/
theorem strategy_error_wedges_compaction_manager (e : DbError)
    (outcomes : List (Except DbError CompactionStats)) :
    ((CompactionManager.mk false).triggerCompaction (Except.error e)).2
        = Except.error e ∧
    ((CompactionManager.mk false).triggerCompaction (Except.error e)).1.is_compacting
        = true ∧
    (((CompactionManager.mk false).triggerCompaction (Except.error e)).1.runTriggers
        outcomes).2
      = outcomes.map (fun _ => Except.error alreadyInProgress) := by
  refine ⟨rfl, rfl, ?_⟩
  have h : ((CompactionManager.mk false).triggerCompaction (Except.error e)).1
      = CompactionManager.mk true := rfl
  rw [h, runTriggers_stuck]
